import Mathlib

/-!
Verification of the DEAP (Dual Execution with Asymmetric Privacy) core of the
tlsn repository, together with the notary configuration and the mock test
wiring.  Pure configuration code and the mock wiring are translated directly
from the Rust sources (`tlsn-notary/src/config.rs`,
`mpc-aio/src/protocol/garble/exec/deap/mod.rs`).  The DEAP leader/follower
protocol bodies themselves (`leader.rs`, `follower.rs`, `dual.rs`) are not part
of the source tree; following the specification they are modelled here as an
executable shallow embedding: labels are natural numbers, the garbling backend
is extensional (a garbled circuit is the map from output wire and logical bit
to the label the evaluator obtains), commitments are modelled as perfectly
binding (the committed data itself; hiding is not modelled), and the
commit/reveal equality check follows the construction the specification
describes in sections 4.2 and 4.3.
-/

namespace TlsnSpec

/-! ## Notary configuration (from src/tlsn/tlsn-notary/src/config.rs) -/

/-- `const DEFAULT_MAX_TRANSCRIPT_SIZE: usize = 2 << 14;` (the source comment
says 16Kb, but the value is 32768). -/
def DEFAULT_MAX_TRANSCRIPT_SIZE : Nat := 2 <<< 14

/-- The notary configuration: maximum transcript size in bytes. -/
structure NotaryConfig where
  max_transcript_size : Nat
deriving Repr, DecidableEq

/-- The derive_builder-generated builder: every field starts unset. -/
structure NotaryConfigBuilder where
  max_transcript_size : Option Nat
deriving Repr, DecidableEq

/-- `NotaryConfigBuilder::default()`: all fields unset. -/
def NotaryConfigBuilder.default : NotaryConfigBuilder := ⟨none⟩

/-- The builder's field setter (named `max_transcript_size` in Rust; renamed
here because the structure projection already carries that name). -/
def NotaryConfigBuilder.set_max_transcript_size (b : NotaryConfigBuilder)
    (v : Nat) : NotaryConfigBuilder :=
  { b with max_transcript_size := some v }

/-- `NotaryConfigBuilder::build()`: derive_builder returns `Result`; since the
single field has a declared default the failure branch is unreachable, and the
default is substituted for an unset field. -/
def NotaryConfigBuilder.build (b : NotaryConfigBuilder) :
    Except String NotaryConfig :=
  .ok ⟨b.max_transcript_size.getD DEFAULT_MAX_TRANSCRIPT_SIZE⟩

/-- `NotaryConfig::builder()`. -/
def NotaryConfig.builder : NotaryConfigBuilder := NotaryConfigBuilder.default

/-! ## Protocol roles, errors and state tags -/

/-- The two DEAP roles. -/
inductive Role
  | leader
  | follower
deriving Repr, DecidableEq

/-- Session errors, from the specification's error table (section 7). -/
inductive DEAPError
  | configMismatch
  | transferFailed
  | channelClosed
  | authenticity
  | sequencing
deriving Repr, DecidableEq

/-- The protocol phases of one role's state machine (specification
section 4.4): `Initialized → Setup → Executed → Verified`. -/
inductive DEAPState
  | initialized
  | inputsSetup
  | executed
  | outputVerified
deriving Repr, DecidableEq

/-! ## Mock wiring (from src/mpc/mpc-aio/.../deap/mod.rs, `mod mock`) -/

/-- Which end of a duplex channel an endpoint is. -/
inductive ChanSide
  | left
  | right
deriving Repr, DecidableEq

/-- One endpoint of a `DuplexChannel`.  Endpoint identity is modelled by the
numeric id of the shared underlying channel. -/
structure ChannelEndpoint where
  chan : Nat
  side : ChanSide
deriving Repr, DecidableEq

/-- `DuplexChannel::<GarbleMessage>::new()` returns the two endpoints of one
fresh duplex channel; the fresh object identity is the explicit id. -/
def DuplexChannel.new (id : Nat) : ChannelEndpoint × ChannelEndpoint :=
  (⟨id, .left⟩, ⟨id, .right⟩)

/-- Whether an OT endpoint is the sending or the receiving half. -/
inductive OTRole
  | sender
  | receiver
deriving Repr, DecidableEq

/-- A mock OT endpoint: the id names the shared internal channel of the pair
it was created in. -/
structure OTEndpoint where
  pair : Nat
  role : OTRole
deriving Repr, DecidableEq

/-- `mock_ot_pair()` returns a sender and a receiver joined by one fresh
internal channel. -/
def mock_ot_pair (id : Nat) : OTEndpoint × OTEndpoint :=
  (⟨id, .sender⟩, ⟨id, .receiver⟩)

/-- The counterpart of an OT endpoint: the other half of the same pair. -/
def OTEndpoint.counterpart (e : OTEndpoint) : OTEndpoint :=
  ⟨e.pair, match e.role with | .sender => .receiver | .receiver => .sender⟩

/-- The garbling backend used by the mock pair (`RayonBackend`). -/
inductive Backend
  | rayonBackend
deriving Repr, DecidableEq

/-- A circuit: bit widths of the input wire groups, output bit width, and the
boolean function computed (little-endian bit lists).  The circuit itself is an
external collaborator of the DEAP core. -/
structure Circuit where
  inputWidths : List Nat
  outWidth : Nat
  eval : List Bool → List Bool → List Bool

/-- `MockDEAPLeader<S>` — the fields `DEAPLeader::new` stores.  Modelled from
the spec: section 4.4, `Initialized` holds circuit, channel, backend, optional
OT sender and OT receiver; the phase type parameter `S` becomes the `state`
tag. -/
structure MockDEAPLeader where
  circ : Circuit
  channel : ChannelEndpoint
  backend : Backend
  ot_sender : Option OTEndpoint
  ot_receiver : Option OTEndpoint
  state : DEAPState

/-- `MockDEAPFollower<S>` — the fields `DEAPFollower::new` stores. Modelled
from the spec: section 4.4, as for the leader. -/
structure MockDEAPFollower where
  circ : Circuit
  channel : ChannelEndpoint
  backend : Backend
  ot_sender : Option OTEndpoint
  ot_receiver : Option OTEndpoint
  state : DEAPState

/-- `DEAPLeader::new(circ, channel, backend, ot_sender, ot_receiver)` produces
a leader in the `Initialized` state. -/
def DEAPLeader.new (circ : Circuit) (channel : ChannelEndpoint)
    (backend : Backend) (ot_sender ot_receiver : Option OTEndpoint) :
    MockDEAPLeader :=
  ⟨circ, channel, backend, ot_sender, ot_receiver, .initialized⟩

/-- `DEAPFollower::new(circ, channel, backend, ot_sender, ot_receiver)`
produces a follower in the `Initialized` state. -/
def DEAPFollower.new (circ : Circuit) (channel : ChannelEndpoint)
    (backend : Backend) (ot_sender ot_receiver : Option OTEndpoint) :
    MockDEAPFollower :=
  ⟨circ, channel, backend, ot_sender, ot_receiver, .initialized⟩

/-- `mock_deap_pair(circ)`, line for line from the Rust source: one duplex
channel, two mock OT pairs wired crosswise, both parties built with
`RayonBackend` and all OT options populated. -/
def mock_deap_pair (circ : Circuit) : MockDEAPLeader × MockDEAPFollower :=
  let lf := DuplexChannel.new 0
  let leader_channel := lf.1
  let follower_channel := lf.2
  let p1 := mock_ot_pair 1
  let leader_sender := p1.1
  let follower_receiver := p1.2
  let p2 := mock_ot_pair 2
  let follower_sender := p2.1
  let leader_receiver := p2.2
  let leader := DEAPLeader.new circ leader_channel .rayonBackend
    (some leader_sender) (some leader_receiver)
  let follower := DEAPFollower.new circ follower_channel .rayonBackend
    (some follower_sender) (some follower_receiver)
  (leader, follower)

/-! ## The DEAP protocol model

Modelled from the spec: the bodies of `DEAPLeader`/`DEAPFollower`
(`leader.rs`, `follower.rs`) and the shared `setup_inputs_with` (`dual.rs`)
are not under the source tree; what follows embeds them following
specification sections 4.1 - 4.4 and 5.  Labels are natural numbers; a sent
garbled circuit is represented extensionally by the map from output wire and
logical output bit to the label evaluation yields, together with output
decoding information; commitments are perfectly binding (modelled as the
committed data; hiding is not modelled). -/

/-- A wire label. -/
abbrev Label := Nat

/-- The extensional content of a transmitted garbled circuit: `out w b` is the
active label the evaluator obtains on output wire `w` when the logical output
bit is `b`, and `dec w` is the decoding information for wire `w` (honestly the
0-label, letting the evaluator decode its active label to a bit). -/
structure GCMsg where
  out : Nat → Bool → Label
  dec : Nat → Label

/-- The honest garbled-circuit message produced from a garbler's full output
label set `g`. -/
def honestGCMsg (g : Nat → Bool → Label) : GCMsg :=
  ⟨g, fun w => g w false⟩

/-- The output-label pairs of a garbling, over `n` output wires; also the
content of the (perfectly binding) commitment sent with the garbled
circuit. -/
def commitPairs (n : Nat) (g : Nat → Bool → Label) : List (Label × Label) :=
  (List.range n).map fun w => (g w false, g w true)

/-- Select one label of a pair by a bit. -/
def pairSel (p : Label × Label) (b : Bool) : Label :=
  if b then p.2 else p.1

/-- The reveal message of the equality-check phase: the garbler opens its
output-label-pair commitment and discloses its check value. -/
structure RevealMsg where
  pairs : List (Label × Label)
  value : List (Label × Label)
deriving Repr, DecidableEq

/-- A protocol message, for transcript-ordering statements. -/
inductive Msg
  | otTransfer (who : Role) (wire : Nat)
  | garbledCirc (who : Role)
  | outputCommit (who : Role) (com : List (Label × Label))
  | checkReveal (who : Role) (r : RevealMsg)

/-- Whether a message is an output-label-pair commitment. -/
def Msg.isCommit : Msg → Bool
  | .outputCommit _ _ => true
  | _ => false

/-- Whether a message is an equality-check reveal. -/
def Msg.isReveal : Msg → Bool
  | .checkReveal _ _ => true
  | _ => false

/-- A single-party alteration applied to the phase-one message (garbled
circuit and/or output-label-pair commitment) before it is sent. -/
structure TamperA where
  gc : GCMsg → GCMsg
  com : List (Label × Label) → List (Label × Label)

/-- The identity (no alteration: the party sends what it honestly
produced). -/
def TamperA.id : TamperA := ⟨fun m => m, fun c => c⟩

/-- The logical output bit of the jointly computed function on wire `w`. -/
def trueOut (C : Circuit) (x y : List Bool) (w : Nat) : Bool :=
  (C.eval x y).getD w false

/-- Evaluating a received garbled circuit on the active input labels of the
actual run: the active output label per output wire. -/
def evalActive (C : Circuit) (x y : List Bool) (m : GCMsg) (w : Nat) : Label :=
  m.out w (trueOut C x y w)

/-- Decoding an active output label with the received decoding information:
the bit is whether the label differs from the (claimed) 0-label. -/
def decodedBit (C : Circuit) (x y : List Bool) (m : GCMsg) (w : Nat) : Bool :=
  decide (evalActive C x y m w ≠ m.dec w)

/-- The equality check performed by one party during `verify` (specification
section 4.3): the peer's opened output-label pairs must match the commitment
received in the execute phase; the party's evaluated active labels must agree
with the opened pairs at its decoded bits; and the peer's revealed check value
must equal the party's own.  Any failure is an authenticity error. -/
def verifyCheck (n : Nat) (comRecv : List (Label × Label)) (reveal : RevealMsg)
    (aList : List Label) (zsList : List Bool)
    (vOwn : List (Label × Label)) : Except DEAPError Unit :=
  if reveal.pairs = comRecv
      ∧ aList = (List.range n).map
          (fun w => pairSel (reveal.pairs.getD w (0, 0)) (zsList.getD w false))
      ∧ reveal.value = vOwn
  then .ok ()
  else .error .authenticity

/-- The observable result of one DEAP session, from the dual garble/evaluate
exchange onwards (input setup is `setup_inputs` below).  `leaderOut` and
`followerOut` are the decoded outputs each role's `execute` returns to its
caller, before `verify` runs — mirroring the test
`let (output, leader) = ....execute().await.unwrap(); leader.verify()`. -/
structure RunResult where
  transcript : List Msg
  gcL : GCMsg
  gcF : GCMsg
  comL : List (Label × Label)
  comF : List (Label × Label)
  revealMsgL : RevealMsg
  revealMsgF : RevealMsg
  leaderOut : List Bool
  followerOut : List Bool
  checkValueL : List (Label × Label)
  checkValueF : List (Label × Label)
  leaderVerify : Except DEAPError Unit
  followerVerify : Except DEAPError Unit

/-- One full DEAP session after input setup, on circuit `C` with leader input
`x`, follower input `y`, leader full output labels `L`, follower full output
labels `F`, and a (possibly identity) alteration of each party's outgoing
garbled circuit and commitment.  Both parties otherwise follow the protocol:
each garbles, exchanges garbled circuit and binding commitment, evaluates the
peer's garbled circuit, decodes, forms its check value in the canonical order
(leader-garbling component first), and then the commit/reveal equality check
runs.  Reveals open the actual committed data (binding). -/
def runDEAP (C : Circuit) (x y : List Bool) (L F : Nat → Bool → Label)
    (tL tF : TamperA) : RunResult :=
  let n := C.outWidth
  let msgL := tL.gc (honestGCMsg L)
  let comL := tL.com (commitPairs n L)
  let msgF := tF.gc (honestGCMsg F)
  let comF := tF.com (commitPairs n F)
  let aL := evalActive C x y msgF
  let zL := decodedBit C x y msgF
  let aF := evalActive C x y msgL
  let zF := decodedBit C x y msgL
  let vL := (List.range n).map fun w => (L w (zL w), aL w)
  let vF := (List.range n).map fun w => (aF w, F w (zF w))
  let revealL : RevealMsg := ⟨commitPairs n L, vL⟩
  let revealF : RevealMsg := ⟨commitPairs n F, vF⟩
  { transcript :=
      [.garbledCirc .leader, .outputCommit .leader comL,
       .garbledCirc .follower, .outputCommit .follower comF,
       .checkReveal .leader revealL, .checkReveal .follower revealF]
    gcL := msgL
    gcF := msgF
    comL := comL
    comF := comF
    revealMsgL := revealL
    revealMsgF := revealF
    leaderOut := (List.range n).map zL
    followerOut := (List.range n).map zF
    checkValueL := vL
    checkValueF := vF
    leaderVerify :=
      verifyCheck n comF revealF ((List.range n).map aL)
        ((List.range n).map zL) vL
    followerVerify :=
      verifyCheck n comL revealL ((List.range n).map aF)
        ((List.range n).map zF) vF }

/-! ## Input setup (spec section 4.1) -/

/-- The outcome of input setup: the messages emitted (OT transfers) and either
the assembled active input label set or a fatal error. -/
structure SetupResult where
  trace : List Msg
  result : Except DEAPError (List Label)

/-- Modelled from the spec: `setup_inputs_with` (`dual.rs`, not under the
source tree), section 4.1.  Given the local full input label set, the local
input values (one bit list per owned wire group), the peer's declared input
wire groups (their bit widths), and the OT oracle delivering the label for
each peer-owned wire, assemble the active input label set.  The configuration
check — the owned and declared groups must together cover exactly the
circuit's input wires — runs first: on mismatch a fatal `ConfigMismatch` is
raised before any OT transfer begins and before any message is sent. -/
def setup_inputs (r : Role) (C : Circuit) (fullInput : Nat → Bool → Label)
    (ownValues : List (List Bool)) (peerGroups : List Nat)
    (otOracle : Nat → Label) : SetupResult :=
  let ownWidth := (ownValues.map List.length).sum
  let peerWidth := peerGroups.sum
  if ownWidth + peerWidth ≠ C.inputWidths.sum then
    ⟨[], .error .configMismatch⟩
  else
    let ownBits := ownValues.flatten
    let ownActive :=
      (List.range ownWidth).map fun w => fullInput w (ownBits.getD w false)
    let peerActive := (List.range peerWidth).map fun w => otOracle w
    ⟨(List.range peerWidth).map fun w => Msg.otTransfer r w,
     .ok (ownActive ++ peerActive)⟩

/-! ## The role state machines (spec section 4.4)

In Rust the phases are sealed phantom type parameters, so an out-of-order call
does not compile; following specification section 9 the discipline is embedded
here as the equivalent explicit runtime check that raises a sequencing
error. -/

/-- The three protocol operations of either role. -/
inductive DEAPOp
  | opSetupInputs
  | opExecute
  | opVerify
deriving Repr, DecidableEq

/-- The leader's state transition: each operation succeeds only in the one
phase that offers it, consumes that state and produces the next; anything else
is a sequencing error. -/
def leaderTransition : DEAPOp → DEAPState → Except DEAPError DEAPState
  | .opSetupInputs, .initialized => .ok .inputsSetup
  | .opExecute, .inputsSetup => .ok .executed
  | .opVerify, .executed => .ok .outputVerified
  | _, _ => .error .sequencing

/-- The follower's state transition: the same shape as the leader's. -/
def followerTransition : DEAPOp → DEAPState → Except DEAPError DEAPState
  | .opSetupInputs, .initialized => .ok .inputsSetup
  | .opExecute, .inputsSetup => .ok .executed
  | .opVerify, .executed => .ok .outputVerified
  | _, _ => .error .sequencing

/-- The transition function of a given role. -/
def roleTransition (r : Role) : DEAPOp → DEAPState → Except DEAPError DEAPState :=
  match r with
  | .leader => leaderTransition
  | .follower => followerTransition

/-- Run a sequence of operations from a state, threading each produced state
into the next call; a failure is terminal. -/
def runOps (r : Role) : List DEAPOp → DEAPState → Except DEAPError DEAPState
  | [], s => .ok s
  | o :: rest, s =>
    match roleTransition r o s with
    | .ok s' => runOps r rest s'
    | .error e => .error e

/-! ## The 64-bit adder scenario (spec section 8) -/

/-- Little-endian bit list to natural number. -/
def bitsToNat : List Bool → Nat
  | [] => 0
  | b :: rest => (if b then 1 else 0) + 2 * bitsToNat rest

/-- Natural number to little-endian bit list of width `k`. -/
def natToBits : Nat → Nat → List Bool
  | 0, _ => []
  | k + 1, m => decide (m % 2 = 1) :: natToBits k (m / 2)

/-- Modelled from the spec: the `ADDER_64` circuit (external `mpc-circuits`
collaborator): two 64-bit input groups, one 64-bit output group, computing
addition modulo `2 ^ 64`. -/
def adder64 : Circuit :=
  { inputWidths := [64, 64]
    outWidth := 64
    eval := fun x y => natToBits 64 ((bitsToNat x + bitsToNat y) % 2 ^ 64) }

/-! ## Concrete instances for witnesses and counterexamples -/

/-- A minimal one-output-wire circuit (logical AND of two 1-bit inputs). -/
def circOne : Circuit :=
  { inputWidths := [1, 1]
    outWidth := 1
    eval := fun x y => [x.getD 0 false && y.getD 0 false] }

/-- A concrete leader full output label set with distinct labels per wire. -/
def labL : Nat → Bool → Label := fun w b => 2 * w + (if b then 1 else 0)

/-- A concrete follower full output label set, disjoint from `labL`. -/
def labF : Nat → Bool → Label := fun w b => 1000 + 2 * w + (if b then 1 else 0)

/-- An active alteration of an outgoing garbled circuit: swap the two output
labels of every wire (the evaluator then obtains the label of the complement
bit). -/
def tamperSwap : TamperA :=
  ⟨fun m => ⟨fun w b => m.out w (!b), m.dec⟩, fun c => c⟩

/-- A passive alteration of an outgoing garbled circuit: replace the label of
output wire 0 for logical bit `false` — inactive whenever the true output bit
is 1 — by a fresh value, leaving decoding information and commitment
untouched. -/
def tamperInactive : TamperA :=
  ⟨fun m => ⟨fun w b => if w = 0 && !b then 999999 else m.out w b, m.dec⟩,
   fun c => c⟩

/-- Decidable equality for `Except` results, so that concrete protocol
outcomes can be settled by `decide`. -/
instance {e a : Type} [DecidableEq e] [DecidableEq a] :
    DecidableEq (Except e a) := fun x y =>
  match x, y with
  | .ok v, .ok w =>
    if h : v = w then isTrue (by rw [h])
    else isFalse (fun hc => h (Except.ok.inj hc))
  | .error v, .error w =>
    if h : v = w then isTrue (by rw [h])
    else isFalse (fun hc => h (Except.error.inj hc))
  | .ok _, .error _ => isFalse (fun hc => Except.noConfusion hc)
  | .error _, .ok _ => isFalse (fun hc => Except.noConfusion hc)

/-! ## Helper lemmas -/

theorem getD_range_map {α : Type} (f : Nat → α) (d : α) {n w : Nat}
    (h : w < n) : ((List.range n).map f).getD w d = f w := by
  rw [List.getD_eq_getElem _ _ (by simpa using h)]
  simp

theorem map_range_getD {α : Type} (l : List α) (d : α) :
    (List.range l.length).map (fun w => l.getD w d) = l := by
  apply List.ext_getElem
  · simp
  · intro i h1 h2
    simp only [List.getElem_map, List.getElem_range]
    rw [List.getD_eq_getElem _ _ h2]

theorem map_range_eq_iff {α : Type} {f g : Nat → α} {n : Nat} :
    (List.range n).map f = (List.range n).map g ↔ ∀ w < n, f w = g w := by
  rw [List.map_inj_left]
  simp

theorem all_distinct_iff (g : Nat → Bool → Label) (n : Nat) :
    ((List.range n).all fun w => g w false != g w true) = true ↔
      ∀ w < n, g w false ≠ g w true := by
  simp [List.all_eq_true]

theorem label_inj {g : Nat → Bool → Label} {w : Nat}
    (hw : g w false ≠ g w true) {b c : Bool} (h : g w b = g w c) : b = c := by
  cases b <;> cases c <;> simp_all

theorem decodedBit_honest (C : Circuit) (x y : List Bool)
    (g : Nat → Bool → Label) {w : Nat} (hw : g w false ≠ g w true) :
    decodedBit C x y (honestGCMsg g) w = trueOut C x y w := by
  cases h : trueOut C x y w <;>
    simp [decodedBit, evalActive, honestGCMsg, h]
  exact fun hc => hw hc.symm

theorem pairSel_pair (g : Nat → Bool → Label) (w : Nat) (b : Bool) :
    pairSel (g w false, g w true) b = g w b := by
  cases b <;> simp [pairSel]

theorem getD_commitPairs (g : Nat → Bool → Label) {n w : Nat} (h : w < n) :
    (commitPairs n g).getD w (0, 0) = (g w false, g w true) :=
  getD_range_map _ _ h

theorem verifyCheck_ok_iff {n : Nat} {com : List (Label × Label)}
    {rev : RevealMsg} {a : List Label} {zs : List Bool}
    {v : List (Label × Label)} :
    verifyCheck n com rev a zs v = .ok () ↔
      (rev.pairs = com
        ∧ a = (List.range n).map
            (fun w => pairSel (rev.pairs.getD w (0, 0)) (zs.getD w false))
        ∧ rev.value = v) := by
  unfold verifyCheck
  split <;> simp_all

theorem runDEAP_honest (C : Circuit) (x y : List Bool) (L F : Nat → Bool → Label)
    (hL : ∀ w < C.outWidth, L w false ≠ L w true)
    (hF : ∀ w < C.outWidth, F w false ≠ F w true) :
    (runDEAP C x y L F TamperA.id TamperA.id).leaderOut
        = (List.range C.outWidth).map (trueOut C x y) ∧
    (runDEAP C x y L F TamperA.id TamperA.id).followerOut
        = (List.range C.outWidth).map (trueOut C x y) ∧
    (runDEAP C x y L F TamperA.id TamperA.id).leaderVerify = .ok () ∧
    (runDEAP C x y L F TamperA.id TamperA.id).followerVerify = .ok () := by
  simp only [runDEAP, TamperA.id]
  refine ⟨?_, ?_, ?_, ?_⟩
  · exact map_range_eq_iff.mpr fun w hw => decodedBit_honest C x y F (hF w hw)
  · exact map_range_eq_iff.mpr fun w hw => decodedBit_honest C x y L (hL w hw)
  · refine verifyCheck_ok_iff.mpr ⟨rfl, ?_, ?_⟩
    · refine map_range_eq_iff.mpr fun w hw => ?_
      rw [getD_range_map _ _ hw, getD_commitPairs F hw, pairSel_pair,
        decodedBit_honest C x y F (hF w hw)]
      rfl
    · refine map_range_eq_iff.mpr fun w hw => ?_
      rw [decodedBit_honest C x y F (hF w hw), decodedBit_honest C x y L (hL w hw)]
      rfl
  · refine verifyCheck_ok_iff.mpr ⟨rfl, ?_, ?_⟩
    · refine map_range_eq_iff.mpr fun w hw => ?_
      rw [getD_range_map _ _ hw, getD_commitPairs L hw, pairSel_pair,
        decodedBit_honest C x y L (hL w hw)]
      rfl
    · refine map_range_eq_iff.mpr fun w hw => ?_
      rw [decodedBit_honest C x y F (hF w hw), decodedBit_honest C x y L (hL w hw)]
      rfl

theorem runDEAP_sound (C : Circuit) (x y : List Bool) (L F : Nat → Bool → Label)
    (tL tF : TamperA)
    (hL : ∀ w < C.outWidth, L w false ≠ L w true)
    (hF : ∀ w < C.outWidth, F w false ≠ F w true)
    (hsingle : tL = TamperA.id ∨ tF = TamperA.id)
    (hok2 : (runDEAP C x y L F tL tF).followerVerify = .ok ()) :
    (runDEAP C x y L F tL tF).leaderOut
        = (List.range C.outWidth).map (trueOut C x y) ∧
    (runDEAP C x y L F tL tF).followerOut
        = (List.range C.outWidth).map (trueOut C x y) := by
  rcases hsingle with h | h
  · subst h
    simp only [runDEAP, TamperA.id] at hok2 ⊢
    rw [verifyCheck_ok_iff] at hok2
    obtain ⟨-, -, hval⟩ := hok2
    refine ⟨map_range_eq_iff.mpr fun w hw => ?_,
      map_range_eq_iff.mpr fun w hw => ?_⟩
    · have hpt := map_range_eq_iff.mp hval w hw
      have h1 : L w (decodedBit C x y (tF.gc (honestGCMsg F)) w)
          = L w (trueOut C x y w) := congrArg Prod.fst hpt
      exact label_inj (hL w hw) h1
    · exact decodedBit_honest C x y L (hL w hw)
  · subst h
    simp only [runDEAP, TamperA.id] at hok2 ⊢
    rw [verifyCheck_ok_iff] at hok2
    obtain ⟨-, -, hval⟩ := hok2
    refine ⟨map_range_eq_iff.mpr fun w hw => ?_,
      map_range_eq_iff.mpr fun w hw => ?_⟩
    · exact decodedBit_honest C x y F (hF w hw)
    · have hpt := map_range_eq_iff.mp hval w hw
      have h2 : F w (trueOut C x y w)
          = F w (decodedBit C x y (tL.gc (honestGCMsg L)) w) :=
        congrArg Prod.snd hpt
      exact (label_inj (hF w hw) h2).symm

theorem runOps_from_verified (r : Role) (ops : List DEAPOp) :
    Except.isOk (runOps r ops .outputVerified) = true ↔ ops = [] := by
  have hrt : roleTransition r = leaderTransition := by cases r <;> rfl
  rcases ops with _ | ⟨o, t⟩
  · simp [runOps, Except.isOk, Except.toBool]
  · cases o <;> simp [runOps, hrt, leaderTransition, Except.isOk, Except.toBool]

theorem runOps_from_executed (r : Role) (ops : List DEAPOp) :
    Except.isOk (runOps r ops .executed) = true ↔ ops <+: [DEAPOp.opVerify] := by
  have hrt : roleTransition r = leaderTransition := by cases r <;> rfl
  rcases ops with _ | ⟨o, t⟩
  · simp [runOps, Except.isOk, Except.toBool]
  cases o
  case opVerify =>
    simp only [runOps, hrt, leaderTransition]
    rw [runOps_from_verified r t]
    simp [List.cons_prefix_cons, List.prefix_nil]
  all_goals simp [runOps, hrt, leaderTransition, Except.isOk, Except.toBool,
    List.cons_prefix_cons]

theorem runOps_from_setup (r : Role) (ops : List DEAPOp) :
    Except.isOk (runOps r ops .inputsSetup) = true ↔
      ops <+: [DEAPOp.opExecute, DEAPOp.opVerify] := by
  have hrt : roleTransition r = leaderTransition := by cases r <;> rfl
  rcases ops with _ | ⟨o, t⟩
  · simp [runOps, Except.isOk, Except.toBool]
  cases o
  case opExecute =>
    simp only [runOps, hrt, leaderTransition]
    rw [runOps_from_executed r t]
    simp [List.cons_prefix_cons]
  all_goals simp [runOps, hrt, leaderTransition, Except.isOk, Except.toBool,
    List.cons_prefix_cons]

theorem runOps_initialized_ok (r : Role) (ops : List DEAPOp) :
    Except.isOk (runOps r ops .initialized) = true ↔
      ops <+: [DEAPOp.opSetupInputs, DEAPOp.opExecute, DEAPOp.opVerify] := by
  have hrt : roleTransition r = leaderTransition := by cases r <;> rfl
  rcases ops with _ | ⟨o, t⟩
  · simp [runOps, Except.isOk, Except.toBool]
  cases o
  case opSetupInputs =>
    simp only [runOps, hrt, leaderTransition]
    rw [runOps_from_setup r t]
    simp [List.cons_prefix_cons]
  all_goals simp [runOps, hrt, leaderTransition, Except.isOk, Except.toBool,
    List.cons_prefix_cons]

/-! ## Claim theorems -/

/-- Claim C9: building a `NotaryConfig` through `NotaryConfig::builder()`
without setting `max_transcript_size` succeeds and the accessor returns
exactly `2 << 14 = 32768` bytes (despite the source comment calling the
default 16Kb); a value set explicitly is returned unchanged. -/
theorem c9_notary_config_default :
    NotaryConfigBuilder.build NotaryConfig.builder
        = .ok { max_transcript_size := 32768 } ∧
    DEFAULT_MAX_TRANSCRIPT_SIZE = 32768 ∧
    (∀ (b : NotaryConfigBuilder) (v : Nat),
      NotaryConfigBuilder.build (b.set_max_transcript_size v)
        = .ok { max_transcript_size := v }) :=
  ⟨rfl, rfl, fun _ _ => rfl⟩

/-- Claim C10: `mock_deap_pair(circ)` returns a leader and a follower both in
the `Initialized` state sharing the circuit; their message channels are the
two endpoints of one duplex channel; the OT endpoints are cross-paired
(leader sender ↔ follower receiver, follower sender ↔ leader receiver); and
all four OT options are populated. -/
theorem c10_mock_pair_wiring (circ : Circuit) :
    (mock_deap_pair circ).1.state = DEAPState.initialized ∧
    (mock_deap_pair circ).2.state = DEAPState.initialized ∧
    (mock_deap_pair circ).1.circ = circ ∧
    (mock_deap_pair circ).2.circ = circ ∧
    (mock_deap_pair circ).1.channel.chan = (mock_deap_pair circ).2.channel.chan ∧
    (mock_deap_pair circ).1.channel.side ≠ (mock_deap_pair circ).2.channel.side ∧
    Option.map OTEndpoint.counterpart (mock_deap_pair circ).1.ot_sender
      = (mock_deap_pair circ).2.ot_receiver ∧
    Option.map OTEndpoint.counterpart (mock_deap_pair circ).2.ot_sender
      = (mock_deap_pair circ).1.ot_receiver ∧
    (mock_deap_pair circ).1.ot_sender.isSome = true ∧
    (mock_deap_pair circ).1.ot_receiver.isSome = true ∧
    (mock_deap_pair circ).2.ot_sender.isSome = true ∧
    (mock_deap_pair circ).2.ot_receiver.isSome = true := by
  refine ⟨rfl, rfl, rfl, rfl, rfl, ?_, rfl, rfl, rfl, rfl, rfl, rfl⟩
  intro h
  exact ChanSide.noConfusion h

/-- Claim C6: for both roles, invoking an operation against the wrong state
is rejected with a sequencing error; `execute` succeeds exactly on the state
`setup_inputs` produces, `verify` exactly on the state `execute` produces;
and since each transition consumes its state, the operation sequences that
run without error from `Initialized` are exactly the prefixes of
`setup_inputs; execute; verify`. -/
theorem c6_typestate_sequencing (r : Role) :
    (∀ s, Except.isOk (roleTransition r .opExecute s) = true ↔
      s = .inputsSetup) ∧
    (∀ s, Except.isOk (roleTransition r .opVerify s) = true ↔
      s = .executed) ∧
    (∀ s, Except.isOk (roleTransition r .opSetupInputs s) = true ↔
      s = .initialized) ∧
    (∀ o s, roleTransition r o s = .ok .inputsSetup ↔
      (o = .opSetupInputs ∧ s = .initialized)) ∧
    (∀ o s, roleTransition r o s = .ok .executed ↔
      (o = .opExecute ∧ s = .inputsSetup)) ∧
    (∀ o s, Except.isOk (roleTransition r o s) = true
      ∨ roleTransition r o s = .error .sequencing) ∧
    (∀ ops, Except.isOk (runOps r ops .initialized) = true ↔
      ops <+: [DEAPOp.opSetupInputs, DEAPOp.opExecute, DEAPOp.opVerify]) := by
  have hrt : roleTransition r = leaderTransition := by cases r <;> rfl
  refine ⟨?_, ?_, ?_, ?_, ?_, ?_, fun ops => runOps_initialized_ok r ops⟩
  · intro s; cases s <;> simp [hrt, leaderTransition, Except.isOk, Except.toBool]
  · intro s; cases s <;> simp [hrt, leaderTransition, Except.isOk, Except.toBool]
  · intro s; cases s <;> simp [hrt, leaderTransition, Except.isOk, Except.toBool]
  · intro o s; cases o <;> cases s <;> simp [hrt, leaderTransition]
  · intro o s; cases o <;> cases s <;> simp [hrt, leaderTransition]
  · intro o s; cases o <;> cases s <;>
      simp [hrt, leaderTransition, Except.isOk, Except.toBool]

/-- Claim C7: during input setup, a mismatch between the total bit-width of
the declared wire groups and the circuit's input wire groups is a fatal
configuration error raised before any OT transfer begins: the emitted message
trace is empty and the result is `ConfigMismatch`. -/
theorem c7_config_mismatch (r : Role) (C : Circuit)
    (fullInput : Nat → Bool → Label) (ownValues : List (List Bool))
    (peerGroups : List Nat) (otOracle : Nat → Label)
    (h : (ownValues.map List.length).sum + peerGroups.sum
      ≠ C.inputWidths.sum) :
    (setup_inputs r C fullInput ownValues peerGroups otOracle).trace = [] ∧
    (setup_inputs r C fullInput ownValues peerGroups otOracle).result
      = .error .configMismatch := by
  simp only [setup_inputs]
  rw [if_pos h]
  exact ⟨rfl, rfl⟩

/-- Witness for C7: declaring a single 64-bit peer group and one own bit
against the 128-input-bit adder circuit is rejected with `ConfigMismatch` and
an empty trace. -/
theorem c7_config_mismatch_witness :
    (([[true]].map List.length).sum + [64].sum ≠ adder64.inputWidths.sum) ∧
    ((setup_inputs .leader adder64 labL [[true]] [64] fun _ => 0).trace = []
      ∧ (setup_inputs .leader adder64 labL [[true]] [64] fun _ => 0).result
        = .error .configMismatch) :=
  ⟨by decide,
   c7_config_mismatch .leader adder64 labL [[true]] [64] (fun _ => 0)
     (by decide)⟩

/-- Claim C8: in every protocol run, both parties' output-label-pair
commitments occur in the transcript strictly before every equality-check
reveal: there is a split point with no reveal before it and no commitment
after it, the two commitments before it and the two reveals after it. -/
theorem c8_commit_before_reveal (C : Circuit) (x y : List Bool)
    (L F : Nat → Bool → Label) (tL tF : TamperA) :
    ∃ k,
      (((runDEAP C x y L F tL tF).transcript.take k).all
          fun m => !m.isReveal) = true ∧
      (((runDEAP C x y L F tL tF).transcript.drop k).all
          fun m => !m.isCommit) = true ∧
      Msg.outputCommit .leader (runDEAP C x y L F tL tF).comL
        ∈ (runDEAP C x y L F tL tF).transcript.take k ∧
      Msg.outputCommit .follower (runDEAP C x y L F tL tF).comF
        ∈ (runDEAP C x y L F tL tF).transcript.take k ∧
      Msg.checkReveal .leader (runDEAP C x y L F tL tF).revealMsgL
        ∈ (runDEAP C x y L F tL tF).transcript.drop k ∧
      Msg.checkReveal .follower (runDEAP C x y L F tL tF).revealMsgF
        ∈ (runDEAP C x y L F tL tF).transcript.drop k := by
  refine ⟨4, ?_, ?_, ?_, ?_, ?_, ?_⟩ <;>
    simp [runDEAP, Msg.isReveal, Msg.isCommit]

/-- Claim C4: for every circuit and pair of honest inputs (both parties
honest: no alteration), running leader and follower to completion yields
decoded outputs equal to each other and to `C(x_leader, x_follower)`, and
both equality checks succeed.  The hygiene hypotheses say each garbler's two
labels per output wire are distinct and the circuit's output has its declared
width. -/
theorem c4_honest_correctness (C : Circuit) (x y : List Bool)
    (L F : Nat → Bool → Label)
    (hL : ((List.range C.outWidth).all fun w => L w false != L w true) = true)
    (hF : ((List.range C.outWidth).all fun w => F w false != F w true) = true)
    (hlen : (C.eval x y).length = C.outWidth) :
    (runDEAP C x y L F TamperA.id TamperA.id).leaderOut = C.eval x y ∧
    (runDEAP C x y L F TamperA.id TamperA.id).followerOut = C.eval x y ∧
    (runDEAP C x y L F TamperA.id TamperA.id).leaderVerify = .ok () ∧
    (runDEAP C x y L F TamperA.id TamperA.id).followerVerify = .ok () := by
  obtain ⟨h1, h2, h3, h4⟩ := runDEAP_honest C x y L F
    ((all_distinct_iff L _).mp hL) ((all_distinct_iff F _).mp hF)
  have hmap : (List.range C.outWidth).map (trueOut C x y) = C.eval x y := by
    rw [← hlen]
    exact map_range_getD _ _
  exact ⟨hmap ▸ h1, hmap ▸ h2, h3, h4⟩

/-- Witness for C4: the one-wire AND circuit on honest inputs. -/
theorem c4_honest_correctness_witness :
    (((List.range circOne.outWidth).all
        fun w => labL w false != labL w true) = true) ∧
    (((List.range circOne.outWidth).all
        fun w => labF w false != labF w true) = true) ∧
    ((circOne.eval [true] [false]).length = circOne.outWidth) ∧
    ((runDEAP circOne [true] [false] labL labF TamperA.id TamperA.id).leaderOut
        = circOne.eval [true] [false] ∧
     (runDEAP circOne [true] [false] labL labF TamperA.id TamperA.id).followerOut
        = circOne.eval [true] [false] ∧
     (runDEAP circOne [true] [false] labL labF TamperA.id TamperA.id).leaderVerify
        = .ok () ∧
     (runDEAP circOne [true] [false] labL labF TamperA.id TamperA.id).followerVerify
        = .ok ()) :=
  ⟨by decide, by decide, by decide,
   c4_honest_correctness circOne [true] [false] labL labF
     (by decide) (by decide) (by decide)⟩

set_option maxRecDepth 100000 in
/-- Claim C5: on the 64-bit adder circuit with leader input 1 and follower
input 2 under honest execution, both parties decode the output 3 (as bits and
as a value) and both equality checks pass. -/
theorem c5_adder64_scenario :
    (runDEAP adder64 (natToBits 64 1) (natToBits 64 2) labL labF
      TamperA.id TamperA.id).leaderOut = natToBits 64 3 ∧
    (runDEAP adder64 (natToBits 64 1) (natToBits 64 2) labL labF
      TamperA.id TamperA.id).followerOut = natToBits 64 3 ∧
    bitsToNat (runDEAP adder64 (natToBits 64 1) (natToBits 64 2) labL labF
      TamperA.id TamperA.id).leaderOut = 3 ∧
    (runDEAP adder64 (natToBits 64 1) (natToBits 64 2) labL labF
      TamperA.id TamperA.id).leaderVerify = .ok () ∧
    (runDEAP adder64 (natToBits 64 1) (natToBits 64 2) labL labF
      TamperA.id TamperA.id).followerVerify = .ok () := by
  decide

/-- Counterexample to claim C1: a run (follower's garbled circuit altered by
swapping output labels) in which the equality check never passes — both
verifies raise an authenticity error — yet each role's `execute` has already
returned a decoded bit-string to its caller, exactly as in the source test
where `execute()` returns `(output, _)` before `verify()` is called.  The
decoded outputs even disagree between the parties. -/
theorem c1_counterexample :
    (runDEAP circOne [true] [false] labL labF TamperA.id tamperSwap).leaderOut
      = [true] ∧
    (runDEAP circOne [true] [false] labL labF TamperA.id tamperSwap).followerOut
      = [false] ∧
    (runDEAP circOne [true] [false] labL labF TamperA.id tamperSwap).leaderVerify
      = .error .authenticity ∧
    (runDEAP circOne [true] [false] labL labF TamperA.id tamperSwap).followerVerify
      = .error .authenticity := by
  decide

/-- Claim C1 as amended: for both roles the decoded bit-string returned to
the caller is produced by the execute phase — decoding the evaluated peer
garbled circuit — covering every output wire, in every run and independently
of the verify outcome; verify itself returns no bit-string and only
certifies. -/
theorem c1_output_exposed_at_execute (C : Circuit) (x y : List Bool)
    (L F : Nat → Bool → Label) (tL tF : TamperA) :
    (runDEAP C x y L F tL tF).leaderOut
        = (List.range C.outWidth).map
            (decodedBit C x y (tF.gc (honestGCMsg F))) ∧
    (runDEAP C x y L F tL tF).followerOut
        = (List.range C.outWidth).map
            (decodedBit C x y (tL.gc (honestGCMsg L))) ∧
    (runDEAP C x y L F tL tF).leaderOut.length = C.outWidth ∧
    (runDEAP C x y L F tL tF).followerOut.length = C.outWidth := by
  refine ⟨rfl, rfl, ?_, ?_⟩ <;> simp [runDEAP]

/-- Counterexample to claim C2: a mismatch detected by the equality check
(follower swapped its output labels) does raise an authenticity error for
both parties, but outputs had already been released to both callers by
`execute`, contradicting "no output is released to the caller". -/
theorem c2_counterexample :
    (runDEAP circOne [true] [true] labL labF TamperA.id tamperSwap).checkValueL
      ≠ (runDEAP circOne [true] [true] labL labF TamperA.id
          tamperSwap).checkValueF ∧
    (runDEAP circOne [true] [true] labL labF TamperA.id tamperSwap).leaderVerify
      = .error .authenticity ∧
    (runDEAP circOne [true] [true] labL labF TamperA.id
      tamperSwap).followerVerify = .error .authenticity ∧
    (runDEAP circOne [true] [true] labL labF TamperA.id tamperSwap).leaderOut
      = [false] ∧
    (runDEAP circOne [true] [true] labL labF TamperA.id tamperSwap).followerOut
      = [true] := by
  decide

/-- Claim C2 as amended: any mismatch between the two parties' check values
makes the verify step fail with an authenticity error for both roles, and the
verify step releases no output (its success carries no data); the unverified
output already returned by `execute` must be discarded by the caller. -/
theorem c2_mismatch_raises_authenticity (C : Circuit) (x y : List Bool)
    (L F : Nat → Bool → Label) (tL tF : TamperA)
    (h : (runDEAP C x y L F tL tF).checkValueL
      ≠ (runDEAP C x y L F tL tF).checkValueF) :
    (runDEAP C x y L F tL tF).leaderVerify = .error .authenticity ∧
    (runDEAP C x y L F tL tF).followerVerify = .error .authenticity := by
  simp only [runDEAP] at h ⊢
  constructor
  · unfold verifyCheck
    rw [if_neg]
    rintro ⟨-, -, hv⟩
    exact h hv.symm
  · unfold verifyCheck
    rw [if_neg]
    rintro ⟨-, -, hv⟩
    exact h hv

/-- Witness for the amended C2 at a concrete mismatching run. -/
theorem c2_mismatch_raises_authenticity_witness :
    ((runDEAP circOne [true] [true] labL labF TamperA.id
        tamperSwap).checkValueL
      ≠ (runDEAP circOne [true] [true] labL labF TamperA.id
          tamperSwap).checkValueF) ∧
    ((runDEAP circOne [true] [true] labL labF TamperA.id
        tamperSwap).leaderVerify = .error .authenticity ∧
     (runDEAP circOne [true] [true] labL labF TamperA.id
        tamperSwap).followerVerify = .error .authenticity) :=
  ⟨by decide,
   c2_mismatch_raises_authenticity circOne [true] [true] labL labF
     TamperA.id tamperSwap (by decide)⟩

/-- Counterexample to claim C3: an alteration of the follower's garbled
circuit before sending — replacing the inactive output label of wire 0 —
produces an altered transcript that both parties nevertheless accept: not
every single-party alteration makes the equality check fail. -/
theorem c3_counterexample :
    (runDEAP circOne [true] [true] labL labF TamperA.id
        tamperInactive).gcF.out 0 false
      ≠ (honestGCMsg labF).out 0 false ∧
    (runDEAP circOne [true] [true] labL labF TamperA.id
      tamperInactive).leaderVerify = .ok () ∧
    (runDEAP circOne [true] [true] labL labF TamperA.id
      tamperInactive).followerVerify = .ok () := by
  decide

/-- Claim C3 as amended: no false accept — under any single-party alteration
of the outgoing garbled circuit or output-label-pair commitment, if both
parties' equality checks accept then both decoded outputs are correct (equal
to each other and to `C(x, y)`); an alteration can escape detection only by
leaving the run's decoded outputs unchanged. -/
theorem c3_no_false_accept (C : Circuit) (x y : List Bool)
    (L F : Nat → Bool → Label) (tL tF : TamperA)
    (hL : ((List.range C.outWidth).all fun w => L w false != L w true) = true)
    (hF : ((List.range C.outWidth).all fun w => F w false != F w true) = true)
    (hlen : (C.eval x y).length = C.outWidth)
    (hsingle : tL = TamperA.id ∨ tF = TamperA.id)
    (_hokL : (runDEAP C x y L F tL tF).leaderVerify = .ok ())
    (hokF : (runDEAP C x y L F tL tF).followerVerify = .ok ()) :
    (runDEAP C x y L F tL tF).leaderOut = C.eval x y ∧
    (runDEAP C x y L F tL tF).followerOut = C.eval x y := by
  have hs := runDEAP_sound C x y L F tL tF
    ((all_distinct_iff L _).mp hL) ((all_distinct_iff F _).mp hF) hsingle hokF
  have hmap : (List.range C.outWidth).map (trueOut C x y) = C.eval x y := by
    rw [← hlen]
    exact map_range_getD _ _
  exact ⟨hmap ▸ hs.1, hmap ▸ hs.2⟩

/-- Witness for the amended C3 at a concrete accepting run. -/
theorem c3_no_false_accept_witness :
    (((List.range circOne.outWidth).all
        fun w => labL w false != labL w true) = true) ∧
    (((List.range circOne.outWidth).all
        fun w => labF w false != labF w true) = true) ∧
    ((circOne.eval [true] [true]).length = circOne.outWidth) ∧
    (TamperA.id = TamperA.id ∨ TamperA.id = TamperA.id) ∧
    ((runDEAP circOne [true] [true] labL labF TamperA.id
        TamperA.id).leaderVerify = .ok ()) ∧
    ((runDEAP circOne [true] [true] labL labF TamperA.id
        TamperA.id).followerVerify = .ok ()) ∧
    ((runDEAP circOne [true] [true] labL labF TamperA.id
        TamperA.id).leaderOut = circOne.eval [true] [true] ∧
     (runDEAP circOne [true] [true] labL labF TamperA.id
        TamperA.id).followerOut = circOne.eval [true] [true]) :=
  ⟨by decide, by decide, by decide, Or.inl rfl, by decide, by decide,
   c3_no_false_accept circOne [true] [true] labL labF TamperA.id TamperA.id
     (by decide) (by decide) (by decide) (Or.inl rfl) (by decide) (by decide)⟩

end TlsnSpec
